import Mathlib

/-!
Verification of the training-loop controller of `experiment.py`
(`run_experiment`, `_run_training_loop`, `_save_model_snapshot`,
`_load_model_snapshot`), shallowly embedded in Lean.

Modelling conventions:
* Python floats are modelled as rationals; a possibly-NaN float value is
  modelled by the type `Experiment.Val` (`nan` or a finite rational), with
  comparison operators that return `false` whenever one side is NaN,
  matching IEEE/Python comparison semantics used at lines 239 and 242 of
  the source.
* Model parameters (the lasagne `output_layer` weights) are opaque to the
  controller; they are modelled as a natural-number token.  Each epoch's
  `training_iter()` call replaces the live parameters with the token
  supplied by that epoch's input.
* The external inputs of one epoch (`training_iter()` and
  `validation_eval()` results, wall-clock elapsed time, and the parameters
  produced by the training step) are collected in `Experiment.EpochOk`.
  An epoch may instead raise `OverflowError` or `KeyboardInterrupt`; the
  three possibilities form `Experiment.EpochEvent`, supplied as a function
  from the epoch index.
* Python's local variable `next_epoch`, which is unbound until the first
  loop iteration assigns it, is modelled as an `Option Nat` field
  (`none` = unbound); reading it while `none` produces the
  `unboundLocal` exit, the model of Python's `UnboundLocalError`.
* Side effects are reified: observer (print) calls, snapshot writes and
  `learning_rate_var.set_value` calls are accumulated into lists in
  `Experiment.LoopResult`.
-/

namespace Experiment

/-- A Python float that may be NaN.  Finite values are rationals. -/
inductive Val where
  | nan : Val
  | fin : ℚ → Val
deriving DecidableEq

/-- Python `>` on floats: any comparison with NaN is false. -/
def vgt : Val → Val → Bool
  | Val.fin a, Val.fin b => decide (b < a)
  | _, _ => false

/-- Python `<=` on floats: any comparison with NaN is false. -/
def vle : Val → Val → Bool
  | Val.fin a, Val.fin b => decide (a ≤ b)
  | _, _ => false

/-- Source line 26: `_MIN_LEARNING_RATE = 1e-10`. -/
def minLearningRate : ℚ := 1 / 10 ^ 10

/-- Source line 27: `_LEARNING_RATE_GRACE_PERIOD = 3`. -/
def lrGracePeriod : ℕ := 3

/-- Source line 214: `_MaxState = namedtuple('MaxState', ('accuracy', 'epoch', 'params'))`. -/
structure MaxState where
  accuracy : Val
  epoch : ℕ
  params : ℕ
deriving DecidableEq

/-- The configuration arguments of `_run_training_loop` (the `snapshotPfx`
field models the `snapshot_prefix` argument). -/
structure Config where
  numEpochs : ℕ
  snapshotEvery : ℕ
  snapshotPfx : String
  snapshotFinalModel : Bool
  startEpoch : ℕ
  learningRate : ℚ
  adaptLearningRate : Bool
deriving DecidableEq

/-- The mutable state carried across loop iterations: live model
parameters, the shared learning-rate cell, `max_state`, and the Python
local `next_epoch` (`none` = not yet assigned). -/
structure LoopState where
  params : ℕ
  learningRate : ℚ
  maxState : Option MaxState
  nextEpochVar : Option ℕ
deriving DecidableEq

/-- External inputs consumed by one successfully-executing epoch. -/
structure EpochOk where
  elapsed : ℚ
  trainingLoss : Val
  validationLoss : Val
  validationAccuracy : Val
  newParams : ℕ
deriving DecidableEq

/-- What the external world does at a given epoch: normal results, an
`OverflowError` raised inside the training step, or a `KeyboardInterrupt`. -/
inductive EpochEvent where
  | ok : EpochOk → EpochEvent
  | overflow : EpochEvent
  | interrupt : EpochEvent
deriving DecidableEq

/-- Observer (reporting) calls, source lines 221 and 229-232: the initial
validation report, and one per-epoch report carrying
(reported epoch number `next_epoch`, total epochs, elapsed seconds,
training loss, validation loss, validation accuracy). -/
inductive ObserverEvent where
  | initial : Val → Val → ObserverEvent
  | report : ℕ → ℕ → ℚ → Val → Val → Val → ObserverEvent
deriving DecidableEq

/-- A persisted snapshot: its path and the serialized `(next_epoch, params)`. -/
structure SnapshotWrite where
  path : String
  nextEpoch : ℕ
  params : ℕ
deriving DecidableEq

/-- How `_run_training_loop` ends: fell out of the `for` (completed),
`break` at the minimum learning rate, an `OverflowError` or
`KeyboardInterrupt` propagating out, or Python's `UnboundLocalError` on
reading `next_epoch` in the final-snapshot block. -/
inductive LoopExit where
  | completed : LoopExit
  | minRateStop : LoopExit
  | overflowErr : LoopExit
  | keyboardInterrupt : LoopExit
  | unboundLocal : LoopExit
deriving DecidableEq

/-- The reified effects and final state of one `_run_training_loop` call. -/
structure LoopResult where
  reports : List ObserverEvent
  snapshots : List SnapshotWrite
  lrWrites : List ℚ
  exit : LoopExit
  finalState : LoopState
deriving DecidableEq

/-- Source line 137: the snapshot path
`'%s.snapshot-%s.pkl.zip' % (snapshot_prefix, next_epoch)`. -/
def snapshotPath (pfx : String) (nextEpoch : ℕ) : String :=
  pfx ++ ".snapshot-" ++ toString nextEpoch ++ ".pkl.zip"

/-- Source lines 235-236: the periodic-snapshot write of one epoch, a list
that is empty when the guard `snapshot_every and next_epoch % snapshot_every == 0`
is false (Python truthiness: `snapshot_every = 0` disables it). -/
def periodicSnapshots (cfg : Config) (e : ℕ) (params : ℕ) : List SnapshotWrite :=
  if cfg.snapshotEvery ≠ 0 ∧ (e + 1) % cfg.snapshotEvery = 0 then
    [{ path := snapshotPath cfg.snapshotPfx (e + 1), nextEpoch := e + 1, params := params }]
  else []

/-- Source lines 239-240: replace `max_state` when it is `None` or on strict
improvement of validation accuracy; `params` is a deep copy of the live
parameters (`lasagne.layers.get_all_param_values`). -/
def updateMaxState (e : ℕ) (vacc : Val) (params : ℕ) : Option MaxState → MaxState
  | none => { accuracy := vacc, epoch := e, params := params }
  | some ms =>
    if vgt vacc ms.accuracy then { accuracy := vacc, epoch := e, params := params } else ms

/-- Result of the adaptive step: `stop` models the `break` at the minimum
learning rate; `cont` carries the updated state and the list of values
written to the shared learning-rate cell during the step. -/
inductive AdaptOutcome where
  | stop : AdaptOutcome
  | cont : LoopState → List ℚ → AdaptOutcome
deriving DecidableEq

/-- Source lines 238-250: the adaptive learning-rate step of one epoch.
First `max_state` is refreshed (lines 239-240); then, if accuracy did not
exceed the recorded maximum and the grace period is exhausted, a reduction
event fires: the rate is divided by 10, the loop breaks if that underflows
the minimum rate, and otherwise the cell is written, the live parameters
are rolled back to `max_state.params`, and `max_state` has its epoch field
refreshed (lines 242-249). -/
def adaptStep (e : ℕ) (vacc : Val) (st : LoopState) : AdaptOutcome :=
  let ms := updateMaxState e vacc st.params st.maxState
  if vle vacc ms.accuracy ∧ e - ms.epoch > lrGracePeriod then
    let newRate := st.learningRate / 10
    if newRate < minLearningRate then AdaptOutcome.stop
    else
      AdaptOutcome.cont
        { st with learningRate := newRate, params := ms.params,
                  maxState := some { accuracy := ms.accuracy, epoch := e, params := ms.params } }
        [newRate]
  else AdaptOutcome.cont { st with maxState := some (updateMaxState e vacc st.params st.maxState) } []

/-- Source lines 252-254: after the loop, when `snapshot_final_model` is
set, save a snapshot keyed by the loop variable `next_epoch`; if no
iteration ever assigned it, Python raises `UnboundLocalError`. -/
def finishLoop (cfg : Config) (exitTag : LoopExit) (st : LoopState) : LoopResult :=
  if cfg.snapshotFinalModel then
    match st.nextEpochVar with
    | none =>
      { reports := [], snapshots := [], lrWrites := [],
        exit := LoopExit.unboundLocal, finalState := st }
    | some ne =>
      { reports := [],
        snapshots := [{ path := snapshotPath cfg.snapshotPfx ne, nextEpoch := ne, params := st.params }],
        lrWrites := [], exit := exitTag, finalState := st }
  else
    { reports := [], snapshots := [], lrWrites := [], exit := exitTag, finalState := st }

/-- Source lines 225-254: the `for epoch in xrange(start_epoch, num_epochs)`
loop, by recursion on the number `r` of remaining epochs, with `e` the
current epoch index.  An `OverflowError` or `KeyboardInterrupt` raised by
an epoch propagates immediately (skipping the final-snapshot block);
otherwise the epoch runs the training step, reports, optionally snapshots,
and runs the adaptive step. -/
def loopAux (cfg : Config) (ev : ℕ → EpochEvent) : ℕ → ℕ → LoopState → LoopResult
  | 0, _, st => finishLoop cfg LoopExit.completed st
  | r + 1, e, st =>
    match ev e with
    | EpochEvent.overflow =>
      { reports := [], snapshots := [], lrWrites := [],
        exit := LoopExit.overflowErr, finalState := st }
    | EpochEvent.interrupt =>
      { reports := [], snapshots := [], lrWrites := [],
        exit := LoopExit.keyboardInterrupt, finalState := st }
    | EpochEvent.ok d =>
      let st1 : LoopState := { st with params := d.newParams, nextEpochVar := some (e + 1) }
      let rep := ObserverEvent.report (e + 1) cfg.numEpochs d.elapsed d.trainingLoss
        d.validationLoss d.validationAccuracy
      let snaps := periodicSnapshots cfg e st1.params
      match (if cfg.adaptLearningRate then adaptStep e d.validationAccuracy st1
             else AdaptOutcome.cont st1 []) with
      | AdaptOutcome.stop =>
        let res := finishLoop cfg LoopExit.minRateStop st1
        { reports := rep :: res.reports, snapshots := snaps ++ res.snapshots,
          lrWrites := res.lrWrites, exit := res.exit, finalState := res.finalState }
      | AdaptOutcome.cont st2 ws =>
        let res := loopAux cfg ev r (e + 1) st2
        { reports := rep :: res.reports, snapshots := snaps ++ res.snapshots,
          lrWrites := ws ++ res.lrWrites, exit := res.exit, finalState := res.finalState }

/-- Source lines 217-254: `_run_training_loop`.  `ivl`/`iva` are the result
of the initial `validation_eval()` call (line 220), `initParams` the
parameters the model builder produced. -/
def runTrainingLoop (cfg : Config) (ivl iva : Val) (ev : ℕ → EpochEvent) (initParams : ℕ) :
    LoopResult :=
  let st0 : LoopState :=
    { params := initParams, learningRate := cfg.learningRate, maxState := none,
      nextEpochVar := none }
  let res := loopAux cfg ev (cfg.numEpochs - cfg.startEpoch) cfg.startEpoch st0
  { res with reports := ObserverEvent.initial ivl iva :: res.reports }

/-- Outcomes observable from `run_experiment` (lines 100-106): a normally
returning call (covers both full completion and the minimum-learning-rate
break), the `except OverflowError` divergence report, the silenced
`KeyboardInterrupt`, and an uncaught `UnboundLocalError` crash. -/
inductive Outcome where
  | completed : Outcome
  | diverged : Outcome
  | interrupted : Outcome
  | crashUnboundLocal : Outcome
deriving DecidableEq

/-- Source lines 100-106: how `run_experiment` maps the loop's ending to an
observable outcome.  Only `OverflowError` and `KeyboardInterrupt` are
caught; an `UnboundLocalError` propagates as a crash. -/
def runExperimentOutcome : LoopExit → Outcome
  | LoopExit.completed => Outcome.completed
  | LoopExit.minRateStop => Outcome.completed
  | LoopExit.overflowErr => Outcome.diverged
  | LoopExit.keyboardInterrupt => Outcome.interrupted
  | LoopExit.unboundLocal => Outcome.crashUnboundLocal

/-- Modelled from the spec: the pickle serialization used by
`_save_model_snapshot` (line 140, `pkl_utils.dump((next_epoch, output_layer), out)`)
lives in the external `theano_latest.misc` module, not under the sources;
per the spec it "serializes `(epoch, params)` as one atomic blob" and
"overwrites if path exists".  The file system is a map from path to the
stored pair, and a save overwrites the entry at the deterministic path. -/
def saveModelSnapshot (params : ℕ) (pfx : String) (nextEpoch : ℕ)
    (fs : String → Option (ℕ × ℕ)) : String → Option (ℕ × ℕ) :=
  fun path => if path = snapshotPath pfx nextEpoch then some (nextEpoch, params) else fs path

/-- Source lines 143-146: `_load_model_snapshot` deserializes the stored
pair at the given path (serialization modelled as in `saveModelSnapshot`). -/
def loadModelSnapshot (path : String) (fs : String → Option (ℕ × ℕ)) : Option (ℕ × ℕ) :=
  fs path

/-- The values successively written to the shared learning-rate cell,
relative to the value `prev` the cell held before: each write is a
division by 10 of the previous value and is at least the minimum
learning rate. -/
def lrWriteChain : ℚ → List ℚ → Prop
  | _, [] => True
  | prev, w :: ws => w = prev / 10 ∧ minLearningRate ≤ w ∧ lrWriteChain w ws

/-- The reported epoch number of the last per-epoch observer report in the
list, with a default used when the list holds no per-epoch report. -/
def lastReportNum : List ObserverEvent → Option ℕ → Option ℕ
  | [], acc => acc
  | ObserverEvent.initial _ _ :: rest, acc => lastReportNum rest acc
  | ObserverEvent.report n _ _ _ _ _ :: rest, _ => lastReportNum rest (some n)

/-- Run configuration for the C1 counterexample: five epochs, no
snapshotting, fixed learning rate. -/
def cfgC1 : Config :=
  { numEpochs := 5, snapshotEvery := 0, snapshotPfx := "model", snapshotFinalModel := false,
    startEpoch := 0, learningRate := 1 / 100, adaptLearningRate := false }

/-- Epoch inputs for the C1 counterexample: the training loss is NaN at
loop epoch index 2 (reported as epoch 3) and finite at every other epoch;
no exception is ever raised. -/
def evC1 : ℕ → EpochEvent := fun i =>
  EpochEvent.ok
    { elapsed := 1, trainingLoss := if i = 2 then Val.nan else Val.fin (9 / 10),
      validationLoss := Val.fin (1 / 2), validationAccuracy := Val.fin (2 / 5), newParams := i }

/-- Run configuration for the C1 witness. -/
def cfgC1w : Config :=
  { numEpochs := 1, snapshotEvery := 0, snapshotPfx := "model", snapshotFinalModel := false,
    startEpoch := 0, learningRate := 1 / 100, adaptLearningRate := false }

/-- Loop state for the C1 witness. -/
def stC1w : LoopState :=
  { params := 0, learningRate := 1 / 100, maxState := none, nextEpochVar := none }

/-- Claim C1 is false as stated: in the run `cfgC1`/`evC1` the training
loss is NaN on (reported) epoch 3, yet the loop does not stop there — all
five epochs report (initial call plus five per-epoch reports) and the run
ends with the normal completion outcome, not `Diverged`.  The loop of
`_run_training_loop` contains no NaN check; only an `OverflowError` stops
it. -/
theorem claim_C1_counterexample :
    evC1 2 = EpochEvent.ok
      { elapsed := 1, trainingLoss := Val.nan, validationLoss := Val.fin (1 / 2),
        validationAccuracy := Val.fin (2 / 5), newParams := 2 } ∧
    (runTrainingLoop cfgC1 (Val.fin 1) (Val.fin (2 / 5)) evC1 0).reports.length = 6 ∧
    (runTrainingLoop cfgC1 (Val.fin 1) (Val.fin (2 / 5)) evC1 0).exit = LoopExit.completed ∧
    runExperimentOutcome LoopExit.completed = Outcome.completed := by
  refine ⟨rfl, ?_, ?_, rfl⟩ <;> decide

/-- Claim C1 (amended): the loop stops on divergence only through an
`OverflowError` raised during an epoch's training step: the loop then ends
at once with no report for that epoch and no further epochs, the final
state is untouched, and `run_experiment` catches the exception and reports
the `Diverged` outcome.  A NaN training/validation loss or validation
accuracy does not stop the loop (see the counterexample). -/
theorem claim_C1 (cfg : Config) (ev : ℕ → EpochEvent) (r e : ℕ) (st : LoopState)
    (h : ev e = EpochEvent.overflow) :
    loopAux cfg ev (r + 1) e st =
      { reports := [], snapshots := [], lrWrites := [],
        exit := LoopExit.overflowErr, finalState := st } ∧
    runExperimentOutcome LoopExit.overflowErr = Outcome.diverged :=
  ⟨by simp [loopAux, h], rfl⟩

/-- Concrete instantiation of the amended C1. -/
theorem claim_C1_witness :
    (fun _ : ℕ => EpochEvent.overflow) 0 = EpochEvent.overflow ∧
    (loopAux cfgC1w (fun _ : ℕ => EpochEvent.overflow) 1 0 stC1w =
      { reports := [], snapshots := [], lrWrites := [],
        exit := LoopExit.overflowErr, finalState := stC1w } ∧
     runExperimentOutcome LoopExit.overflowErr = Outcome.diverged) :=
  ⟨rfl, claim_C1 cfgC1w (fun _ : ℕ => EpochEvent.overflow) 0 0 stC1w rfl⟩

/-- Run configuration for the C9 witness: `startEpoch` is at least
`numEpochs`, so the loop body never executes. -/
def cfgC9 : Config :=
  { numEpochs := 2, snapshotEvery := 0, snapshotPfx := "model", snapshotFinalModel := true,
    startEpoch := 3, learningRate := 1 / 100, adaptLearningRate := false }

/-- Claim C9: when the final-snapshot policy is on and
`startEpoch ≥ numEpochs`, the loop body never runs, so the Python local
`next_epoch` was never assigned; the final-snapshot block reads it and the
function fails with an unbound-variable error — no snapshot is written,
and `run_experiment` does not catch this exception, so it crashes. -/
theorem claim_C9 (cfg : Config) (ivl iva : Val) (ev : ℕ → EpochEvent) (ip : ℕ)
    (h1 : cfg.numEpochs ≤ cfg.startEpoch) (h2 : cfg.snapshotFinalModel = true) :
    (runTrainingLoop cfg ivl iva ev ip).exit = LoopExit.unboundLocal ∧
    (runTrainingLoop cfg ivl iva ev ip).snapshots = [] ∧
    runExperimentOutcome LoopExit.unboundLocal = Outcome.crashUnboundLocal := by
  have hr : cfg.numEpochs - cfg.startEpoch = 0 := Nat.sub_eq_zero_of_le h1
  refine ⟨?_, ?_, rfl⟩ <;> simp [runTrainingLoop, hr, loopAux, finishLoop, h2]

/-- Concrete instantiation of C9. -/
theorem claim_C9_witness :
    cfgC9.numEpochs ≤ cfgC9.startEpoch ∧ cfgC9.snapshotFinalModel = true ∧
    ((runTrainingLoop cfgC9 (Val.fin 1) (Val.fin 1) (fun _ => EpochEvent.overflow) 0).exit =
        LoopExit.unboundLocal ∧
     (runTrainingLoop cfgC9 (Val.fin 1) (Val.fin 1) (fun _ => EpochEvent.overflow) 0).snapshots =
        [] ∧
     runExperimentOutcome LoopExit.unboundLocal = Outcome.crashUnboundLocal) :=
  ⟨by decide, rfl,
   claim_C9 cfgC9 (Val.fin 1) (Val.fin 1) (fun _ => EpochEvent.overflow) 0 (by decide) rfl⟩

/-- Loop state for the C3 witness: best accuracy 1/2 recorded at epoch 0. -/
def stC3 : LoopState :=
  { params := 9, learningRate := 1 / 100,
    maxState := some { accuracy := Val.fin (1 / 2), epoch := 0, params := 7 },
    nextEpochVar := some 4 }

/-- Claim C3: a reduction event that does not terminate the loop rolls the
live parameters back to the parameters recorded in the current `MaxState`,
sets the learning rate to the previous rate divided by 10, and refreshes
only the `epoch` field of `MaxState` (its `accuracy` and `params` are kept),
leaving everything else in the loop state unchanged. -/
theorem claim_C3 (e : ℕ) (vacc : Val) (st : LoopState)
    (h1 : vle vacc (updateMaxState e vacc st.params st.maxState).accuracy = true)
    (h2 : e - (updateMaxState e vacc st.params st.maxState).epoch > lrGracePeriod)
    (h3 : ¬ st.learningRate / 10 < minLearningRate) :
    adaptStep e vacc st =
      AdaptOutcome.cont
        { st with learningRate := st.learningRate / 10,
                  params := (updateMaxState e vacc st.params st.maxState).params,
                  maxState := some
                    { accuracy := (updateMaxState e vacc st.params st.maxState).accuracy,
                      epoch := e,
                      params := (updateMaxState e vacc st.params st.maxState).params } }
        [st.learningRate / 10] := by
  simp [adaptStep, h1, h2, h3]

/-- Concrete instantiation of C3: at epoch 4 with the best accuracy seen at
epoch 0 and no improvement, the rate drops from 1/100 to 1/1000, the live
parameters return to the recorded ones, and the grace clock restarts. -/
theorem claim_C3_witness :
    vle (Val.fin (1 / 2)) (updateMaxState 4 (Val.fin (1 / 2)) stC3.params stC3.maxState).accuracy
        = true ∧
    4 - (updateMaxState 4 (Val.fin (1 / 2)) stC3.params stC3.maxState).epoch > lrGracePeriod ∧
    ¬ stC3.learningRate / 10 < minLearningRate ∧
    adaptStep 4 (Val.fin (1 / 2)) stC3 =
      AdaptOutcome.cont
        { stC3 with learningRate := stC3.learningRate / 10,
                    params := (updateMaxState 4 (Val.fin (1 / 2)) stC3.params stC3.maxState).params,
                    maxState := some
                      { accuracy :=
                          (updateMaxState 4 (Val.fin (1 / 2)) stC3.params stC3.maxState).accuracy,
                        epoch := 4,
                        params :=
                          (updateMaxState 4 (Val.fin (1 / 2)) stC3.params stC3.maxState).params } }
        [stC3.learningRate / 10] := by
  have h1 : vle (Val.fin (1 / 2))
      (updateMaxState 4 (Val.fin (1 / 2)) stC3.params stC3.maxState).accuracy = true := by
    norm_num [vle, vgt, updateMaxState, stC3]
  have h2 : 4 - (updateMaxState 4 (Val.fin (1 / 2)) stC3.params stC3.maxState).epoch >
      lrGracePeriod := by
    norm_num [vgt, updateMaxState, stC3, lrGracePeriod]
  have h3 : ¬ stC3.learningRate / 10 < minLearningRate := by
    norm_num [stC3, minLearningRate]
  exact ⟨h1, h2, h3, claim_C3 4 (Val.fin (1 / 2)) stC3 h1 h2 h3⟩

/-- MaxState for the C4 witness. -/
def msC4 : MaxState := { accuracy := Val.fin (1 / 2), epoch := 0, params := 7 }

/-- Loop state for the C4 witness. -/
def stC4 : LoopState :=
  { params := 9, learningRate := 1 / 100, maxState := some msC4, nextEpochVar := some 4 }

/-- Claim C4: with the grace period constant equal to 3, at a non-improving
epoch the adaptive step fires a reduction event (observably: it does not
return the state unchanged with no learning-rate write) exactly when
`epoch - MaxState.epoch > 3`, i.e. on the 4th consecutive non-improving
epoch after the best one and at no earlier epoch. -/
theorem claim_C4 (e : ℕ) (vacc : Val) (st : LoopState) (ms : MaxState)
    (hms : st.maxState = some ms)
    (hni : vgt vacc ms.accuracy = false)
    (hle : vle vacc ms.accuracy = true) :
    lrGracePeriod = 3 ∧
    ((adaptStep e vacc st ≠ AdaptOutcome.cont st []) ↔ e - ms.epoch > 3) := by
  obtain ⟨p, lr, msOpt, nev⟩ := st
  simp only at hms
  subst hms
  have hupd : updateMaxState e vacc p (some ms) = ms := by
    simp [updateMaxState, hni]
  refine ⟨rfl, ?_⟩
  by_cases hg : e - ms.epoch > 3
  · refine ⟨fun _ => hg, fun _ => ?_⟩
    simp only [adaptStep, hupd, hle, lrGracePeriod]
    split
    · split
      · simp
      · simp
    · simp_all [lrGracePeriod]
  · have hne : adaptStep e vacc ⟨p, lr, some ms, nev⟩ = AdaptOutcome.cont ⟨p, lr, some ms, nev⟩ [] := by
      simp only [adaptStep, hupd]
      have hcond : ¬ (vle vacc ms.accuracy = true ∧ e - ms.epoch > lrGracePeriod) :=
        fun h => hg h.2
      rw [if_neg hcond]
    simp [hne, hg]

/-- Concrete instantiation of C4: at epoch 4 (best epoch 0) the reduction
fires; the boundary 4 - 0 > 3 holds. -/
theorem claim_C4_witness :
    stC4.maxState = some msC4 ∧
    vgt (Val.fin (1 / 2)) msC4.accuracy = false ∧
    vle (Val.fin (1 / 2)) msC4.accuracy = true ∧
    (lrGracePeriod = 3 ∧
     ((adaptStep 4 (Val.fin (1 / 2)) stC4 ≠ AdaptOutcome.cont stC4 []) ↔ 4 - msC4.epoch > 3)) := by
  have hni : vgt (Val.fin (1 / 2)) msC4.accuracy = false := by norm_num [vgt, msC4]
  have hle : vle (Val.fin (1 / 2)) msC4.accuracy = true := by norm_num [vle, msC4]
  exact ⟨rfl, hni, hle, claim_C4 4 (Val.fin (1 / 2)) stC4 msC4 rfl hni hle⟩

/-- Run configuration for the C5 witness: rate 5e-10 under adaptive mode. -/
def cfgC5 : Config :=
  { numEpochs := 5, snapshotEvery := 0, snapshotPfx := "model", snapshotFinalModel := false,
    startEpoch := 0, learningRate := 5 / 10 ^ 10, adaptLearningRate := true }

/-- Loop state for the C5 witness: current rate 5e-10, best at epoch 0. -/
def stC5 : LoopState :=
  { params := 3, learningRate := 5 / 10 ^ 10,
    maxState := some { accuracy := Val.fin (1 / 2), epoch := 0, params := 7 },
    nextEpochVar := some 4 }

/-- Epoch inputs for the C5 witness: non-improving accuracy every epoch. -/
def dC5 : EpochOk :=
  { elapsed := 1, trainingLoss := Val.fin (9 / 10), validationLoss := Val.fin (1 / 2),
    validationAccuracy := Val.fin (1 / 2), newParams := 9 }

/-- Claim C5: when a reduction event computes a new rate (current
rate / 10) below the minimum learning rate, the loop terminates via the
minimum-learning-rate stop without writing to the learning-rate cell
(no `set_value` call is recorded) and without rolling back the live
parameters (they remain the ones the epoch's training step produced). -/
theorem claim_C5 (cfg : Config) (ev : ℕ → EpochEvent) (r e : ℕ) (st : LoopState) (d : EpochOk)
    (hev : ev e = EpochEvent.ok d)
    (hadapt : cfg.adaptLearningRate = true)
    (h1 : vle d.validationAccuracy
        (updateMaxState e d.validationAccuracy d.newParams st.maxState).accuracy = true)
    (h2 : e - (updateMaxState e d.validationAccuracy d.newParams st.maxState).epoch >
        lrGracePeriod)
    (h3 : st.learningRate / 10 < minLearningRate) :
    (loopAux cfg ev (r + 1) e st).exit = LoopExit.minRateStop ∧
    (loopAux cfg ev (r + 1) e st).finalState.learningRate = st.learningRate ∧
    (loopAux cfg ev (r + 1) e st).finalState.params = d.newParams ∧
    (loopAux cfg ev (r + 1) e st).lrWrites = [] := by
  have hstop : adaptStep e d.validationAccuracy
      { st with params := d.newParams, nextEpochVar := some (e + 1) } = AdaptOutcome.stop := by
    simp [adaptStep, h1, h2, h3]
  by_cases hf : cfg.snapshotFinalModel <;>
    refine ⟨?_, ?_, ?_, ?_⟩ <;> simp [loopAux, hev, hadapt, hstop, finishLoop, hf]

/-- Concrete instantiation of C5: the reduction at epoch 4 computes
5e-11 < 1e-10 and the loop stops with the rate cell and parameters
untouched. -/
theorem claim_C5_witness :
    (fun _ : ℕ => EpochEvent.ok dC5) 4 = EpochEvent.ok dC5 ∧
    cfgC5.adaptLearningRate = true ∧
    vle dC5.validationAccuracy
        (updateMaxState 4 dC5.validationAccuracy dC5.newParams stC5.maxState).accuracy = true ∧
    4 - (updateMaxState 4 dC5.validationAccuracy dC5.newParams stC5.maxState).epoch >
        lrGracePeriod ∧
    stC5.learningRate / 10 < minLearningRate ∧
    ((loopAux cfgC5 (fun _ : ℕ => EpochEvent.ok dC5) 1 4 stC5).exit = LoopExit.minRateStop ∧
     (loopAux cfgC5 (fun _ : ℕ => EpochEvent.ok dC5) 1 4 stC5).finalState.learningRate =
        stC5.learningRate ∧
     (loopAux cfgC5 (fun _ : ℕ => EpochEvent.ok dC5) 1 4 stC5).finalState.params =
        dC5.newParams ∧
     (loopAux cfgC5 (fun _ : ℕ => EpochEvent.ok dC5) 1 4 stC5).lrWrites = []) := by
  have h1 : vle dC5.validationAccuracy
      (updateMaxState 4 dC5.validationAccuracy dC5.newParams stC5.maxState).accuracy = true := by
    norm_num [vle, vgt, updateMaxState, stC5, dC5]
  have h2 : 4 - (updateMaxState 4 dC5.validationAccuracy dC5.newParams stC5.maxState).epoch >
      lrGracePeriod := by
    norm_num [vgt, updateMaxState, stC5, dC5, lrGracePeriod]
  have h3 : stC5.learningRate / 10 < minLearningRate := by
    norm_num [stC5, minLearningRate]
  exact ⟨rfl, rfl, h1, h2, h3,
    claim_C5 cfgC5 (fun _ : ℕ => EpochEvent.ok dC5) 0 4 stC5 dC5 rfl rfl h1 h2 h3⟩

/-- The adaptive step never changes the `next_epoch` local. -/
lemma adaptStep_cont_nextEpochVar (e : ℕ) (v : Val) (st st' : LoopState) (ws : List ℚ)
    (h : adaptStep e v st = AdaptOutcome.cont st' ws) : st'.nextEpochVar = st.nextEpochVar := by
  simp only [adaptStep] at h
  split at h
  · split at h
    · simp at h
    · injection h with h1 h2
      subst h1
      rfl
  · injection h with h1 h2
    subst h1
    rfl

/-- Invariant behind C2: whenever the loop ends without an exception
(normal completion or the minimum-learning-rate break) and the
final-snapshot policy is on, the last snapshot written is a final snapshot
keyed by the last per-epoch report's epoch number (defaulting to the
incoming `next_epoch` value when this call executes no epoch). -/
lemma loopAux_finalSnapshot (cfg : Config) (ev : ℕ → EpochEvent) :
    ∀ (r e : ℕ) (st : LoopState),
      cfg.snapshotFinalModel = true →
      ((loopAux cfg ev r e st).exit = LoopExit.completed ∨
       (loopAux cfg ev r e st).exit = LoopExit.minRateStop) →
      ∃ n p, lastReportNum (loopAux cfg ev r e st).reports st.nextEpochVar = some n ∧
        (loopAux cfg ev r e st).snapshots.getLast? =
          some { path := snapshotPath cfg.snapshotPfx n, nextEpoch := n, params := p } := by
  intro r
  induction r with
  | zero =>
    intro e st hfin hexit
    match hnev : st.nextEpochVar with
    | none =>
      exfalso
      simp [loopAux, finishLoop, hfin, hnev] at hexit
    | some m =>
      refine ⟨m, st.params, ?_, ?_⟩ <;>
        simp [loopAux, finishLoop, hfin, hnev, lastReportNum]
  | succ r ih =>
    intro e st hfin hexit
    cases hev : ev e with
    | overflow =>
      exfalso
      simp [loopAux, hev] at hexit
    | interrupt =>
      exfalso
      simp [loopAux, hev] at hexit
    | ok d =>
      simp only [loopAux, hev] at hexit ⊢
      split at hexit
      · rename_i heq
        simp only [heq] at hexit ⊢
        refine ⟨e + 1, d.newParams, ?_, ?_⟩
        · simp [finishLoop, hfin, lastReportNum]
        · simp [finishLoop, hfin, List.getLast?_concat]
      · rename_i st2 ws heq
        simp only [heq] at hexit ⊢
        have hnev2 : st2.nextEpochVar = some (e + 1) := by
          by_cases hA : cfg.adaptLearningRate
          · rw [if_pos hA] at heq
            exact adaptStep_cont_nextEpochVar _ _ _ _ _ heq
          · rw [if_neg hA] at heq
            injection heq with h1 h2
            subst h1
            rfl
        obtain ⟨n, p, hl, hs⟩ := ih (e + 1) st2 hfin hexit
        have hne : (loopAux cfg ev r (e + 1) st2).snapshots ≠ [] := by
          intro hnil
          rw [hnil] at hs
          simp at hs
        refine ⟨n, p, ?_, ?_⟩
        · simp only [lastReportNum]
          rw [← hnev2]
          exact hl
        · rw [List.getLast?_append_of_ne_nil _ hne]
          exact hs

/-- Run configuration for the C2 counterexample: two epochs, final-snapshot
policy enabled, no periodic snapshots. -/
def cfgC2 : Config :=
  { numEpochs := 2, snapshotEvery := 0, snapshotPfx := "model", snapshotFinalModel := true,
    startEpoch := 0, learningRate := 1 / 100, adaptLearningRate := false }

/-- Epoch inputs for the C2 counterexample: epoch 0 succeeds, epoch 1
raises `OverflowError`. -/
def evC2 : ℕ → EpochEvent := fun i =>
  if i = 0 then
    EpochEvent.ok
      { elapsed := 1, trainingLoss := Val.fin (9 / 10), validationLoss := Val.fin (1 / 2),
        validationAccuracy := Val.fin (2 / 5), newParams := 7 }
  else EpochEvent.overflow

/-- Claim C2 is false as stated: in the run `cfgC2`/`evC2` the
final-snapshot policy is enabled and one epoch completed (the initial
report plus one per-epoch report), yet because the run terminates through
an `OverflowError` the exception propagates out of `_run_training_loop`
before the final-snapshot block, and no snapshot at all is persisted. -/
theorem claim_C2_counterexample :
    cfgC2.snapshotFinalModel = true ∧
    (runTrainingLoop cfgC2 (Val.fin 1) (Val.fin (2 / 5)) evC2 0).reports.length = 2 ∧
    (runTrainingLoop cfgC2 (Val.fin 1) (Val.fin (2 / 5)) evC2 0).exit = LoopExit.overflowErr ∧
    (runTrainingLoop cfgC2 (Val.fin 1) (Val.fin (2 / 5)) evC2 0).snapshots = [] := by
  refine ⟨rfl, ?_, ?_, ?_⟩ <;> decide

/-- Claim C2 (amended): with the final-snapshot policy enabled and at
least one epoch executed, a final Snapshot whose `next_epoch` equals the
last completed epoch plus one (the epoch number of the last per-epoch
report) is the last snapshot persisted — but only when the loop ends by
normal completion or by the minimum-learning-rate break.  When an
`OverflowError` or `KeyboardInterrupt` ends the run the exception skips
the final-snapshot block (see the counterexample). -/
theorem claim_C2 (cfg : Config) (ivl iva : Val) (ev : ℕ → EpochEvent) (ip : ℕ) (n : ℕ)
    (hfin : cfg.snapshotFinalModel = true)
    (hexit : (runTrainingLoop cfg ivl iva ev ip).exit = LoopExit.completed ∨
             (runTrainingLoop cfg ivl iva ev ip).exit = LoopExit.minRateStop)
    (hlast : lastReportNum (runTrainingLoop cfg ivl iva ev ip).reports none = some n) :
    ∃ p, (runTrainingLoop cfg ivl iva ev ip).snapshots.getLast? =
      some { path := snapshotPath cfg.snapshotPfx n, nextEpoch := n, params := p } := by
  simp only [runTrainingLoop] at hexit hlast ⊢
  simp only [lastReportNum] at hlast
  obtain ⟨n', p, hl, hs⟩ := loopAux_finalSnapshot cfg ev (cfg.numEpochs - cfg.startEpoch)
    cfg.startEpoch _ hfin hexit
  have : n' = n := by
    have := hl.symm.trans hlast
    exact Option.some.inj this
  subst this
  exact ⟨p, hs⟩

/-- Run configuration for the C2 witness. -/
def cfgC2w : Config :=
  { numEpochs := 1, snapshotEvery := 0, snapshotPfx := "model", snapshotFinalModel := true,
    startEpoch := 0, learningRate := 1 / 100, adaptLearningRate := false }

/-- Epoch inputs for the C2 witness: a single successful epoch. -/
def evC2w : ℕ → EpochEvent := fun _ =>
  EpochEvent.ok
    { elapsed := 1, trainingLoss := Val.fin (9 / 10), validationLoss := Val.fin (1 / 2),
      validationAccuracy := Val.fin (2 / 5), newParams := 42 }

/-- Concrete instantiation of the amended C2: one successful epoch under
the final-snapshot policy persists a final snapshot with next_epoch 1. -/
theorem claim_C2_witness :
    cfgC2w.snapshotFinalModel = true ∧
    ((runTrainingLoop cfgC2w (Val.fin 1) (Val.fin (2 / 5)) evC2w 0).exit = LoopExit.completed ∨
     (runTrainingLoop cfgC2w (Val.fin 1) (Val.fin (2 / 5)) evC2w 0).exit =
        LoopExit.minRateStop) ∧
    lastReportNum (runTrainingLoop cfgC2w (Val.fin 1) (Val.fin (2 / 5)) evC2w 0).reports none =
        some 1 ∧
    ∃ p, (runTrainingLoop cfgC2w (Val.fin 1) (Val.fin (2 / 5)) evC2w 0).snapshots.getLast? =
      some { path := snapshotPath cfgC2w.snapshotPfx 1, nextEpoch := 1, params := p } :=
  ⟨rfl, Or.inl (by decide), by decide,
   claim_C2 cfgC2w (Val.fin 1) (Val.fin (2 / 5)) evC2w 0 1 rfl (Or.inl (by decide)) (by decide)⟩

/-- The post-loop block produces no observer reports. -/
lemma finishLoop_reports (cfg : Config) (t : LoopExit) (st : LoopState) :
    (finishLoop cfg t st).reports = [] := by
  simp only [finishLoop]
  split
  · split <;> rfl
  · rfl

/-- The post-loop block writes nothing to the learning-rate cell. -/
lemma finishLoop_lrWrites (cfg : Config) (t : LoopExit) (st : LoopState) :
    (finishLoop cfg t st).lrWrites = [] := by
  simp only [finishLoop]
  split
  · split <;> rfl
  · rfl

/-- The post-loop block leaves the loop state unchanged. -/
lemma finishLoop_finalState (cfg : Config) (t : LoopExit) (st : LoopState) :
    (finishLoop cfg t st).finalState = st := by
  simp only [finishLoop]
  split
  · split <;> rfl
  · rfl

/-- The post-loop block never turns a non-`completed` ending into
`completed`. -/
lemma finishLoop_exit_ne_completed (cfg : Config) (t : LoopExit) (st : LoopState)
    (h : t ≠ LoopExit.completed) : (finishLoop cfg t st).exit ≠ LoopExit.completed := by
  simp only [finishLoop]
  split
  · split
    · simp
    · simpa
  · simpa

/-- Invariant behind C6: if the loop runs `r` epochs starting at `e`, every
one of those epochs succeeds with the inputs `ds`, and the loop completes
normally, then the reports are exactly one per epoch, in epoch order, each
carrying the reported epoch number `i + 1`, the total epoch count, and that
epoch's elapsed time, training loss, validation loss and accuracy. -/
lemma loopAux_reports_of_completed (cfg : Config) (ev : ℕ → EpochEvent) (ds : ℕ → EpochOk) :
    ∀ (r e : ℕ) (st : LoopState),
      (∀ i, e ≤ i → i < e + r → ev i = EpochEvent.ok (ds i)) →
      (loopAux cfg ev r e st).exit = LoopExit.completed →
      (loopAux cfg ev r e st).reports =
        (List.range' e r).map (fun i =>
          ObserverEvent.report (i + 1) cfg.numEpochs (ds i).elapsed (ds i).trainingLoss
            (ds i).validationLoss (ds i).validationAccuracy) := by
  intro r
  induction r with
  | zero =>
    intro e st _ _
    simpa [loopAux] using finishLoop_reports cfg LoopExit.completed st
  | succ r ih =>
    intro e st hok hexit
    have hev : ev e = EpochEvent.ok (ds e) := hok e le_rfl (by omega)
    simp only [loopAux, hev] at hexit ⊢
    split at hexit
    · rename_i heq
      exfalso
      simp only [heq] at hexit
      exact finishLoop_exit_ne_completed cfg _ _ (by simp) hexit
    · rename_i st2 ws heq
      simp only [heq] at hexit ⊢
      have hrep := ih (e + 1) st2 (fun i h1 h2 => hok i (by omega) (by omega)) hexit
      rw [hrep, List.range'_succ, List.map_cons]

/-- Claim C6: in a run that performs no divergence / no early termination
(every epoch in range succeeds and the loop exit is normal completion), the
loop executes exactly `numEpochs - startEpoch` epochs, and the observer is
invoked exactly once before the loop with the initial validation loss and
accuracy, then exactly once per executed epoch, in epoch order, with that
epoch's reported number (the 1-based `next_epoch` value, per the spec's
next_epoch reporting convention), the total epoch count, the elapsed
seconds, the training loss, the validation loss and the validation
accuracy. -/
theorem claim_C6 (cfg : Config) (ivl iva : Val) (ev : ℕ → EpochEvent) (ip : ℕ)
    (ds : ℕ → EpochOk)
    (hok : ∀ i, cfg.startEpoch ≤ i → i < cfg.numEpochs → ev i = EpochEvent.ok (ds i))
    (hexit : (runTrainingLoop cfg ivl iva ev ip).exit = LoopExit.completed) :
    (runTrainingLoop cfg ivl iva ev ip).reports =
      ObserverEvent.initial ivl iva ::
        (List.range' cfg.startEpoch (cfg.numEpochs - cfg.startEpoch)).map (fun i =>
          ObserverEvent.report (i + 1) cfg.numEpochs (ds i).elapsed (ds i).trainingLoss
            (ds i).validationLoss (ds i).validationAccuracy) ∧
    (runTrainingLoop cfg ivl iva ev ip).reports.length =
      cfg.numEpochs - cfg.startEpoch + 1 := by
  simp only [runTrainingLoop] at hexit ⊢
  have hrep := loopAux_reports_of_completed cfg ev ds (cfg.numEpochs - cfg.startEpoch)
    cfg.startEpoch
    { params := ip, learningRate := cfg.learningRate, maxState := none, nextEpochVar := none }
    (fun i h1 h2 => hok i h1 (by omega)) hexit
  rw [hrep]
  simp [List.length_range']

/-- Run configuration for the C6 witness: two fresh epochs. -/
def cfgC6 : Config :=
  { numEpochs := 2, snapshotEvery := 0, snapshotPfx := "model", snapshotFinalModel := false,
    startEpoch := 0, learningRate := 1 / 100, adaptLearningRate := false }

/-- Per-epoch inputs for the C6 witness. -/
def dsC6 : ℕ → EpochOk := fun i =>
  { elapsed := 1, trainingLoss := Val.fin (9 / 10), validationLoss := Val.fin (1 / 2),
    validationAccuracy := Val.fin (2 / 5), newParams := i }

/-- Epoch events for the C6 witness: every epoch succeeds. -/
def evC6 : ℕ → EpochEvent := fun i => EpochEvent.ok (dsC6 i)

/-- Concrete instantiation of C6 on a two-epoch run. -/
theorem claim_C6_witness :
    (∀ i, cfgC6.startEpoch ≤ i → i < cfgC6.numEpochs → evC6 i = EpochEvent.ok (dsC6 i)) ∧
    (runTrainingLoop cfgC6 (Val.fin 1) (Val.fin (2 / 5)) evC6 0).exit = LoopExit.completed ∧
    ((runTrainingLoop cfgC6 (Val.fin 1) (Val.fin (2 / 5)) evC6 0).reports =
      ObserverEvent.initial (Val.fin 1) (Val.fin (2 / 5)) ::
        (List.range' cfgC6.startEpoch (cfgC6.numEpochs - cfgC6.startEpoch)).map (fun i =>
          ObserverEvent.report (i + 1) cfgC6.numEpochs (dsC6 i).elapsed (dsC6 i).trainingLoss
            (dsC6 i).validationLoss (dsC6 i).validationAccuracy) ∧
     (runTrainingLoop cfgC6 (Val.fin 1) (Val.fin (2 / 5)) evC6 0).reports.length =
        cfgC6.numEpochs - cfgC6.startEpoch + 1) :=
  ⟨fun _ _ _ => rfl, by decide,
   claim_C6 cfgC6 (Val.fin 1) (Val.fin (2 / 5)) evC6 0 dsC6 (fun _ _ _ => rfl) (by decide)⟩

/-- Claim C8: at every executed epoch, a periodic snapshot with
`next_epoch = epoch + 1` is written exactly when snapshotting is enabled
(`snapshotEvery` nonzero) and `(epoch + 1) % snapshotEvery = 0`, at the
deterministic path built from the prefix and the saved epoch number
(`snapshotPath`); `snapshotEvery = 0` disables all periodic snapshots.
The epoch's periodic write is the next thing appended to the run's
snapshot stream. -/
theorem claim_C8 (cfg : Config) (ev : ℕ → EpochEvent) (r e : ℕ) (st : LoopState) (d : EpochOk)
    (hev : ev e = EpochEvent.ok d) :
    (cfg.snapshotEvery ≠ 0 ∧ (e + 1) % cfg.snapshotEvery = 0 →
      periodicSnapshots cfg e d.newParams =
        [{ path := snapshotPath cfg.snapshotPfx (e + 1), nextEpoch := e + 1,
           params := d.newParams }]) ∧
    (cfg.snapshotEvery = 0 → periodicSnapshots cfg e d.newParams = []) ∧
    ((e + 1) % cfg.snapshotEvery ≠ 0 → periodicSnapshots cfg e d.newParams = []) ∧
    ∃ rest, (loopAux cfg ev (r + 1) e st).snapshots =
      periodicSnapshots cfg e d.newParams ++ rest := by
  refine ⟨?_, ?_, ?_, ?_⟩
  · intro h
    unfold periodicSnapshots
    rw [if_pos h]
  · intro h
    unfold periodicSnapshots
    rw [if_neg (fun hc => hc.1 h)]
  · intro h
    unfold periodicSnapshots
    rw [if_neg (fun hc => h hc.2)]
  · simp only [loopAux, hev]
    split
    · exact ⟨_, rfl⟩
    · exact ⟨_, rfl⟩

/-- Run configuration for the C8 witness: snapshot every 2 epochs. -/
def cfgC8 : Config :=
  { numEpochs := 4, snapshotEvery := 2, snapshotPfx := "model", snapshotFinalModel := false,
    startEpoch := 0, learningRate := 1 / 100, adaptLearningRate := false }

/-- Epoch inputs for the C8 witness. -/
def dC8 : EpochOk :=
  { elapsed := 1, trainingLoss := Val.fin (9 / 10), validationLoss := Val.fin (1 / 2),
    validationAccuracy := Val.fin (2 / 5), newParams := 7 }

/-- Epoch events for the C8 witness. -/
def evC8 : ℕ → EpochEvent := fun _ => EpochEvent.ok dC8

/-- Loop state for the C8 witness. -/
def stC8 : LoopState :=
  { params := 0, learningRate := 1 / 100, maxState := none, nextEpochVar := none }

/-- Concrete instantiation of C8 at epoch 1 with snapshotEvery 2 (the
boundary where (1+1) mod 2 = 0 fires the periodic snapshot). -/
theorem claim_C8_witness :
    evC8 1 = EpochEvent.ok dC8 ∧
    ((cfgC8.snapshotEvery ≠ 0 ∧ (1 + 1) % cfgC8.snapshotEvery = 0 →
       periodicSnapshots cfgC8 1 dC8.newParams =
         [{ path := snapshotPath cfgC8.snapshotPfx (1 + 1), nextEpoch := 1 + 1,
            params := dC8.newParams }]) ∧
     (cfgC8.snapshotEvery = 0 → periodicSnapshots cfgC8 1 dC8.newParams = []) ∧
     ((1 + 1) % cfgC8.snapshotEvery ≠ 0 → periodicSnapshots cfgC8 1 dC8.newParams = []) ∧
     ∃ rest, (loopAux cfgC8 evC8 (0 + 1) 1 stC8).snapshots =
       periodicSnapshots cfgC8 1 dC8.newParams ++ rest) :=
  ⟨rfl, claim_C8 cfgC8 evC8 0 1 stC8 dC8 rfl⟩

/-- A non-stopping adaptive step either writes nothing and keeps the rate,
or performs exactly one guarded write of the previous rate divided by 10,
which is at least the minimum learning rate. -/
lemma adaptStep_cont_lr (e : ℕ) (v : Val) (st st' : LoopState) (ws : List ℚ)
    (h : adaptStep e v st = AdaptOutcome.cont st' ws) :
    (ws = [] ∧ st'.learningRate = st.learningRate) ∨
    (ws = [st.learningRate / 10] ∧ st'.learningRate = st.learningRate / 10 ∧
     minLearningRate ≤ st.learningRate / 10) := by
  simp only [adaptStep] at h
  split at h
  · split at h
    · simp at h
    · rename_i hlt
      injection h with h1 h2
      subst h1
      subst h2
      right
      exact ⟨rfl, rfl, le_of_not_lt hlt⟩
  · injection h with h1 h2
    subst h1
    subst h2
    left
    exact ⟨rfl, rfl⟩

/-- Every value in a write chain is at least the minimum learning rate. -/
lemma lrWriteChain_mem :
    ∀ (ws : List ℚ) (prev : ℚ), lrWriteChain prev ws → ∀ w ∈ ws, minLearningRate ≤ w := by
  intro ws
  induction ws with
  | nil =>
    intro prev _ w hw
    cases hw
  | cons a l ihw =>
    intro prev h w hw
    simp only [lrWriteChain] at h
    rcases List.mem_cons.mp hw with hwa | hmem
    · exact hwa ▸ h.2.1
    · exact ihw a h.2.2 w hmem

/-- The minimum learning rate is positive. -/
lemma minLearningRate_pos : (0 : ℚ) < minLearningRate := by
  norm_num [minLearningRate]

/-- Invariant behind C10: over any stretch of the loop, the values written
to the shared learning-rate cell form a chain of guarded divisions by 10
starting from the incoming rate, and the rate can only shrink. -/
lemma loopAux_lrChain (cfg : Config) (ev : ℕ → EpochEvent) :
    ∀ (r e : ℕ) (st : LoopState),
      lrWriteChain st.learningRate (loopAux cfg ev r e st).lrWrites ∧
      (loopAux cfg ev r e st).finalState.learningRate ≤ st.learningRate := by
  intro r
  induction r with
  | zero =>
    intro e st
    constructor
    · simp [loopAux, finishLoop_lrWrites, lrWriteChain]
    · simp [loopAux, finishLoop_finalState]
  | succ r ih =>
    intro e st
    cases hev : ev e with
    | overflow => simp [loopAux, hev, lrWriteChain]
    | interrupt => simp [loopAux, hev, lrWriteChain]
    | ok d =>
      simp only [loopAux, hev]
      split
      · rename_i heq
        constructor
        · simp [finishLoop_lrWrites, lrWriteChain]
        · simp [finishLoop_finalState]
      · rename_i st2 ws heq
        obtain ⟨ihc, ihle⟩ := ih (e + 1) st2
        have hcase :
            (ws = [] ∧ st2.learningRate = st.learningRate) ∨
            (ws = [st.learningRate / 10] ∧ st2.learningRate = st.learningRate / 10 ∧
             minLearningRate ≤ st.learningRate / 10) := by
          by_cases hA : cfg.adaptLearningRate
          · rw [if_pos hA] at heq
            simpa using adaptStep_cont_lr _ _ _ _ _ heq
          · rw [if_neg hA] at heq
            injection heq with h1 h2
            subst h1
            subst h2
            exact Or.inl ⟨rfl, rfl⟩
        rcases hcase with ⟨hw, hlr⟩ | ⟨hw, hlr, hmin⟩
        · subst hw
          rw [hlr] at ihc ihle
          constructor
          · change lrWriteChain st.learningRate ([] ++ (loopAux cfg ev r (e + 1) st2).lrWrites)
            rw [List.nil_append]
            exact ihc
          · change (loopAux cfg ev r (e + 1) st2).finalState.learningRate ≤ st.learningRate
            exact ihle
        · subst hw
          rw [hlr] at ihc ihle
          have hle10 : st.learningRate / 10 ≤ st.learningRate := by
            have h10 : st.learningRate = 10 * (st.learningRate / 10) := by ring
            have hp := minLearningRate_pos
            linarith
          constructor
          · change lrWriteChain st.learningRate
              (st.learningRate / 10 :: (loopAux cfg ev r (e + 1) st2).lrWrites)
            exact ⟨rfl, hmin, ihc⟩
          · change (loopAux cfg ev r (e + 1) st2).finalState.learningRate ≤ st.learningRate
            exact le_trans ihle hle10

/-- Claim C10: throughout a run, the controller's writes to the shared
learning-rate cell form a chain in which each written value is the
previous value divided by 10 and is never below the minimum learning
rate (each write is guarded); consequently every written value is at
least the minimum rate and the rate is monotonically non-increasing over
the run, ending no higher than the initial rate. -/
theorem claim_C10 (cfg : Config) (ivl iva : Val) (ev : ℕ → EpochEvent) (ip : ℕ) :
    lrWriteChain cfg.learningRate (runTrainingLoop cfg ivl iva ev ip).lrWrites ∧
    (∀ w ∈ (runTrainingLoop cfg ivl iva ev ip).lrWrites, minLearningRate ≤ w) ∧
    (runTrainingLoop cfg ivl iva ev ip).finalState.learningRate ≤ cfg.learningRate := by
  simp only [runTrainingLoop]
  obtain ⟨hc, hle⟩ := loopAux_lrChain cfg ev (cfg.numEpochs - cfg.startEpoch) cfg.startEpoch
    { params := ip, learningRate := cfg.learningRate, maxState := none, nextEpochVar := none }
  exact ⟨hc, lrWriteChain_mem _ _ hc, hle⟩

/-- Run configuration for the C10 witness: adaptive mode with a plateau
that forces reductions. -/
def cfgC10 : Config :=
  { numEpochs := 6, snapshotEvery := 0, snapshotPfx := "model", snapshotFinalModel := false,
    startEpoch := 0, learningRate := 1 / 100, adaptLearningRate := true }

/-- Epoch events for the C10 witness: constant validation accuracy, so the
grace period runs out and a reduction fires. -/
def evC10 : ℕ → EpochEvent := fun i =>
  EpochEvent.ok
    { elapsed := 1, trainingLoss := Val.fin (9 / 10), validationLoss := Val.fin (1 / 2),
      validationAccuracy := Val.fin (2 / 5), newParams := i }

/-- Concrete instantiation of C10. -/
theorem claim_C10_witness :
    lrWriteChain cfgC10.learningRate
      (runTrainingLoop cfgC10 (Val.fin 1) (Val.fin (2 / 5)) evC10 0).lrWrites ∧
    (∀ w ∈ (runTrainingLoop cfgC10 (Val.fin 1) (Val.fin (2 / 5)) evC10 0).lrWrites,
      minLearningRate ≤ w) ∧
    (runTrainingLoop cfgC10 (Val.fin 1) (Val.fin (2 / 5)) evC10 0).finalState.learningRate ≤
      cfgC10.learningRate :=
  claim_C10 cfgC10 (Val.fin 1) (Val.fin (2 / 5)) evC10 0

/-- Claim C7: loading the snapshot written by a save returns the same
(epoch, params) pair (round-trip law for the snapshot store). -/
theorem claim_C7 (params : ℕ) (epoch : ℕ) (pfx : String) (fs : String → Option (ℕ × ℕ)) :
    loadModelSnapshot (snapshotPath pfx epoch) (saveModelSnapshot params pfx epoch fs) =
      some (epoch, params) := by
  simp [loadModelSnapshot, saveModelSnapshot]

/-- Concrete instantiation of the C7 round-trip law. -/
theorem claim_C7_witness :
    loadModelSnapshot (snapshotPath "model" 5) (saveModelSnapshot 42 "model" 5 (fun _ => none)) =
      some (5, 42) :=
  claim_C7 42 5 "model" (fun _ => none)

end Experiment
